import Mathlib

/-!
Shallow embedding of the Post Muse backend (src/main.py) in Lean 4.

The database tables (users, posts, platform_tokens, drafts) are modelled as
lists of records; the sqlite queries used by the endpoints become list
lookups.  Nondeterministic externals (uuid4 draws, `datetime.utcnow`, the
Twitter `create_tweet` call, the Instagram graph call) are modelled by an
explicit environment: uuid4 draws are a counter threaded through each
endpoint, and the two external posting calls are oracles indexed by the
position of the platform in the request list.  Exceptions become `Except`
values; FastAPI's `HTTPException(code, detail)` becomes the `HTTPErr`
structure.  Python's `try/except Exception` blocks are embedded by first
computing the result of the guarded body (`*_inner`) and then mapping every
error through the handler, exactly as the source does.

One path needs care: the app runs pydantic v2 (it imports `field_validator`
and uses `info.data`), and the response model of `POST /api/post` types
`postIds` as `List[Dict[str, str]]`.  Pydantic v2 rejects a `None` value for
a `str`-typed dict entry, and every error entry built by the dispatch loop
carries `id: None`, so the `return PostResponse(...)` at src/main.py line
293 raises a response ValidationError — surfaced by FastAPI as HTTP 500 —
after the Post row and the counter update have already been committed.
This is embedded by `validate_post_ids`, applied where the source
constructs the response. -/

namespace PostMuse

/-- Model of FastAPI `HTTPException(code, detail)`. -/
structure HTTPErr where
  code : Nat
  detail : String
deriving DecidableEq, Repr

/-- Rendering of `str(e)` for a FastAPI `HTTPException`: starlette renders it as
`"{status_code}: {detail}"`. -/
def httpErrStr (e : HTTPErr) : String := toString e.code ++ ": " ++ e.detail

/-- A row of the `users` table (src/main.py, `init_db`). -/
structure User where
  id : String
  email : String
  password : String
  api_key : String
  tier : String
  api_calls : Nat
  monthly_posts : Nat
  is_admin : Bool
deriving DecidableEq, Repr

/-- A per-platform result dictionary appended to `post_ids` in `create_post`.
Keys absent from the Python dict are `none`. -/
structure PlatformResult where
  platform : String
  status : String
  id : Option String
  postUrl : Option String
  error : Option String
deriving DecidableEq, Repr

/-- A row of the `posts` table. -/
structure Post where
  id : String
  user_id : String
  content : String
  platforms : List String
  status : String
  post_ids : List PlatformResult
  created_at : String
deriving DecidableEq, Repr

/-- A row of the `platform_tokens` table; token fields are byte strings
(the encrypted Fernet output), modelled as lists of bytes. -/
structure PlatformToken where
  user_id : String
  platform : String
  access_token : List Nat
  refresh_token : Option (List Nat)
  expiry : Nat
deriving DecidableEq, Repr

/-- A row of the `drafts` table. -/
structure Draft where
  id : String
  user_id : String
  content : String
  platform : String
  created_at : String
deriving DecidableEq, Repr

/-- The whole sqlite database. -/
structure DB where
  users : List User
  posts : List Post
  platform_tokens : List PlatformToken
  drafts : List Draft
deriving DecidableEq, Repr

/-- Outcome of the external `client.create_tweet` call for one loop
iteration: a response carrying `response.data[id]`, or a raised exception
with its `str(e)` message. -/
inductive TwResult where
  | ok (tid : String)
  | fail (msg : String)
deriving DecidableEq, Repr

/-- Outcome of the external Instagram graph call for one loop iteration:
a 2xx response whose JSON may or may not contain an `id` key
(`response.json().get(id, str(uuid.uuid4()))`), or a raised exception
(transport error or `raise_for_status`) with its `str(e)` message. -/
inductive IgResult where
  | ok (rid : Option String)
  | fail (msg : String)
deriving DecidableEq, Repr

/-- External environment of a single request: the Fernet key, the clock
(`datetime.utcnow().isoformat()`), and the two external-call oracles indexed
by the platform's position in the request list. -/
structure Env where
  key : Nat
  now : String
  twitter : Nat → TwResult
  instagram : Nat → IgResult

/-- The fixed `PLATFORMS` list (src/main.py line 36). -/
def PLATFORMS : List String :=
  ["bluesky", "facebook", "gmb", "instagram", "linkedin", "pinterest", "reddit",
   "snapchat", "telegram", "tiktok", "threads", "twitter", "youtube"]

/-- Body of `POST /api/post` (`PostRequest` pydantic model); fields the
dispatcher never reads are omitted. -/
structure PostRequest where
  post : String
  platforms : List String
  mediaUrls : Option (List String)
  requiresApproval : Option Bool
deriving DecidableEq, Repr

/-- One entry of a validated `PostResponse.postIds` list: a dict that
passed `Dict[str, str]` validation, so its present values are all strings.
In the dicts the dispatch loop builds, `id` is the only key ever bound to
Python `None` (the three error branches); `postUrl` and `error` are omitted
rather than `None` when missing, and absent keys pass `Dict[str, str]`
validation.  So a validated entry has a string `id`, while `postUrl` and
`error` remain optional (absent keys). -/
structure PostIdEntry where
  platform : String
  status : String
  id : String
  postUrl : Option String
  error : Option String
deriving DecidableEq, Repr

/-- Pydantic v2 validation of one dispatch-loop dict against `Dict[str, str]`:
it validates exactly when its `id` is a string (not `None`). -/
def to_str_dict (r : PlatformResult) : Option PostIdEntry :=
  match r.id with
  | some i => some ⟨r.platform, r.status, i, r.postUrl, r.error⟩
  | none => none

/-- Pydantic v2 validation of the whole `postIds` value against
`List[Dict[str, str]]` (src/main.py line 165): every entry must validate,
otherwise constructing `PostResponse` raises a ValidationError. -/
def validate_post_ids : List PlatformResult → Option (List PostIdEntry)
  | [] => some []
  | r :: rs =>
    match to_str_dict r, validate_post_ids rs with
    | some e, some es => some (e :: es)
    | _, _ => none

/-- Response model of `POST /api/post` (`PostResponse`): constructing it
validates `postIds` against `List[Dict[str, str]]`, so its entries carry
string ids. -/
structure PostResponse where
  status : String
  id : String
  postIds : List PostIdEntry
deriving DecidableEq, Repr

/-- Body of `POST /api/user` (`UserCreateRequest` pydantic model). -/
structure UserCreateRequest where
  email : String
  password : String
  confirm_password : String
  admin_secret : Option String
  is_admin : Bool
  tier : String
deriving DecidableEq, Repr

/-- The i-th `str(uuid.uuid4())` draw of a request, modelled as an opaque
identifier derived from the draw counter. -/
def uuidStr (n : Nat) : String := "uuid-" ++ toString n

/-- Python truthiness of an `Optional[bool]` (`None` and `False` are falsy). -/
def truthy (o : Option Bool) : Bool := o.getD false

/-- Python `str.lower()`, applied character-wise over the string's
characters (the emails in play are ASCII). -/
def py_lower (s : String) : String := ⟨s.data.map Char.toLower⟩

/-- Query `SELECT ... FROM users WHERE id = ?` (first row). -/
def findUser (db : DB) (uid : String) : Option User :=
  db.users.find? (fun u => u.id = uid)

/-- Query `SELECT ... FROM users WHERE api_key = ?` (first row). -/
def findUserByApiKey (db : DB) (k : String) : Option User :=
  db.users.find? (fun u => u.api_key = k)

/-- Query `SELECT ... FROM users WHERE email = ?` (first row). -/
def findUserByEmail (db : DB) (e : String) : Option User :=
  db.users.find? (fun u => u.email = e)

/-- Modelled from the spec: the Fernet cipher of the `cryptography` library
(`cipher.encrypt`), which is not part of this repository.  The spec treats
encryption as an opaque standard-library call that is pure, stateless and
exactly invertible; it is modelled as a keyed byte-wise reversible
transformation on byte strings. -/
def cipher_encrypt (key : Nat) (data : List Nat) : List Nat :=
  data.map (fun b => (b + key) % 256)

/-- Modelled from the spec: `cipher.decrypt`, the inverse transformation of
[cipher_encrypt]. -/
def cipher_decrypt (key : Nat) (data : List Nat) : List Nat :=
  data.map (fun b => (b + (256 - key % 256)) % 256)

/-- Embeds `encrypt_token` (src/main.py lines 176-177): encode the token to bytes,
encrypt, decode.  Tokens are modelled at the byte level, so the
encode/decode steps are identities. -/
def encrypt_token (key : Nat) (token : List Nat) : List Nat :=
  cipher_encrypt key token

/-- Embeds `decrypt_token` (src/main.py lines 179-180). -/
def decrypt_token (key : Nat) (encrypted : List Nat) : List Nat :=
  cipher_decrypt key encrypted

/-- Modelled from the spec: `pwd_context.hash` of passlib's bcrypt context,
which is not part of this repository; the spec treats password hashing as a
standard-library call.  Modelled as an injective tagging of the password. -/
def pwd_hash (p : String) : String := "bcrypt:" ++ p

/-- Modelled from the spec: `pwd_context.verify(password, hash)`, true
exactly when the hash is the hash of the password. -/
def pwd_verify (password hash : String) : Bool := hash = pwd_hash password

/-- The decrypted token dictionary returned by `get_platform_token`. -/
structure PlatformTokenOut where
  access_token : List Nat
  refresh_token : Option (List Nat)
  expiry : Nat
deriving DecidableEq, Repr

/-- Embeds `get_platform_token` (src/main.py lines 223-231): look up the
`(user_id, platform)` row and decrypt its tokens. -/
def get_platform_token (env : Env) (db : DB) (uid platform : String) :
    Option PlatformTokenOut :=
  match db.platform_tokens.find? (fun t => t.user_id = uid && t.platform = platform) with
  | some t =>
      some ⟨decrypt_token env.key t.access_token,
            t.refresh_token.map (decrypt_token env.key), t.expiry⟩
  | none => none

/-- Embeds `get_twitter_client` (src/main.py lines 51-65): re-read `is_admin` from
the users table and refuse non-admins with a 403; on success the tweepy
client is just configuration, modelled as `Unit`. -/
def get_twitter_client (db : DB) (uid : String) : Except HTTPErr Unit :=
  match findUser db uid with
  | some u =>
      if u.is_admin then Except.ok ()
      else Except.error ⟨403, "Twitter posting restricted to admin users"⟩
  | none => Except.error ⟨403, "Twitter posting restricted to admin users"⟩

/-- Body of the `try` block of `get_current_user` (src/main.py lines
184-199): resolve the api key, enforce the free-tier quota. -/
def get_current_user_inner (db : DB) (token : String) : Except HTTPErr String :=
  match findUserByApiKey db token with
  | none => Except.error ⟨401, "Invalid API key"⟩
  | some u =>
      if u.tier = "free" ∧ 20 ≤ u.monthly_posts then
        Except.error ⟨429, "Free tier limit reached"⟩
      else Except.ok u.id

/-- Embeds `get_current_user` (src/main.py lines 183-202): the whole body runs
inside `try ... except Exception`, and the handler re-raises every failure
(including the `HTTPException`s raised in the body) as 401. -/
def get_current_user (db : DB) (token : String) : Except HTTPErr String :=
  match get_current_user_inner db token with
  | Except.ok uid => Except.ok uid
  | Except.error _ => Except.error ⟨401, "Invalid API key"⟩

/-- Body of the `try` block of `login_user` (src/main.py lines 207-217):
look up the lowercased email, verify the password, return the api key. -/
def login_user_inner (db : DB) (email password : String) : Except HTTPErr String :=
  match findUserByEmail db (py_lower email) with
  | some u =>
      if pwd_verify password u.password then Except.ok u.api_key
      else Except.error ⟨401, "Invalid email or password"⟩
  | none => Except.error ⟨401, "Invalid email or password"⟩

/-- Embeds `login_user` (src/main.py lines 205-220): the body runs inside
`try ... except Exception as e`, whose handler re-raises every failure —
including the explicit 401 — as `HTTPException(500, "Login error: " + str(e))`. -/
def login_user (db : DB) (email password : String) : Except HTTPErr String :=
  match login_user_inner db email password with
  | Except.ok k => Except.ok k
  | Except.error e => Except.error ⟨500, "Login error: " ++ httpErrStr e⟩

/-- Embeds `post_to_instagram` (src/main.py lines 234-246).  Returns the result
dictionary (with `platform` filled in by the caller's loop via
`{"platform": platform, **result}`) and the advanced uuid counter. -/
def post_to_instagram (env : Env) (db : DB) (uid : String) (i ctr : Nat) :
    PlatformResult × Nat :=
  match get_platform_token env db uid "instagram" with
  | none => (⟨"instagram", "error", none, none, some "No Instagram token"⟩, ctr)
  | some _ =>
      match env.instagram i with
      | IgResult.ok (some rid) =>
          (⟨"instagram", "success", some rid,
            some ("https://instagram.com/p/" ++ uuidStr ctr), none⟩, ctr + 1)
      | IgResult.ok none =>
          (⟨"instagram", "success", some (uuidStr ctr),
            some ("https://instagram.com/p/" ++ uuidStr (ctr + 1)), none⟩, ctr + 2)
      | IgResult.fail msg => (⟨"instagram", "error", none, none, some msg⟩, ctr)

/-- One iteration of the dispatch loop of `create_post` (src/main.py lines
270-283): branch on the platform tag, produce exactly one result entry. -/
def dispatch_one (env : Env) (db : DB) (uid : String) (i ctr : Nat) (p : String) :
    PlatformResult × Nat :=
  if p = "twitter" then
    match get_twitter_client db uid with
    | Except.error e => (⟨p, "error", none, none, some (httpErrStr e)⟩, ctr)
    | Except.ok _ =>
        match env.twitter i with
        | TwResult.ok tid =>
            (⟨p, "success", some tid,
              some ("https://twitter.com/user/status/" ++ tid), none⟩, ctr)
        | TwResult.fail msg => (⟨p, "error", none, none, some msg⟩, ctr)
  else if p = "instagram" then
    post_to_instagram env db uid i ctr
  else
    (⟨p, "success", some (uuidStr ctr),
      some ("https://" ++ p ++ ".com/post/" ++ uuidStr (ctr + 1)), none⟩, ctr + 2)

/-- The dispatch loop of `create_post`: fold over the requested platforms,
appending one result per platform, threading the uuid counter; `i` is the
loop index feeding the external-call oracles. -/
def dispatch_loop (env : Env) (db : DB) (uid : String) :
    List String → Nat → Nat → List PlatformResult × Nat
  | [], _, ctr => ([], ctr)
  | p :: ps, i, ctr =>
      let r := dispatch_one env db uid i ctr p
      let rest := dispatch_loop env db uid ps (i + 1) r.2
      (r.1 :: rest.1, rest.2)

/-- The admin lookup at the top of `create_post` (src/main.py lines
255-260): `row[0] if row else False`. -/
def user_is_admin (db : DB) (uid : String) : Bool :=
  match findUser db uid with
  | some u => u.is_admin
  | none => false

/-- Computes `status = "awaiting_approval" if request.requiresApproval else "success"`
(src/main.py line 267). -/
def post_status (req : PostRequest) : String :=
  if truthy req.requiresApproval then "awaiting_approval" else "success"

/-- Runs `UPDATE users SET monthly_posts = monthly_posts + 1 WHERE id = ?`
(src/main.py line 289). -/
def bump_monthly (uid : String) (users : List User) : List User :=
  users.map (fun u => if u.id = uid then { u with monthly_posts := u.monthly_posts + 1 } else u)

/-- Embeds `create_post` (src/main.py lines 249-293), after `get_current_user`
has resolved `uid`.  Returns the HTTP outcome together with the database and
uuid counter after the call.  The 400 and 403 raises happen before any
write, so those paths return the database unchanged.  On the main path the
Post row is inserted and `monthly_posts` incremented (lines 285-291) before
the `return PostResponse(...)` at line 293, whose pydantic v2 validation of
`postIds : List[Dict[str, str]]` rejects any entry whose `id` is `None` —
FastAPI surfaces that as HTTP 500 Internal Server Error, after the writes
have committed. -/
def create_post (env : Env) (db : DB) (ctr : Nat) (req : PostRequest) (uid : String) :
    Except HTTPErr PostResponse × DB × Nat :=
  if ¬ (req.platforms.all (fun p => PLATFORMS.contains p)) then
    (Except.error ⟨400, "Invalid platforms"⟩, db, ctr)
  else if req.platforms.contains "twitter" && ! user_is_admin db uid then
    (Except.error ⟨403, "Twitter posting restricted to admin users"⟩, db, ctr)
  else
    let post_id := uuidStr ctr
    let res := dispatch_loop env db uid req.platforms 0 (ctr + 1)
    let newPost : Post :=
      ⟨post_id, uid, req.post, req.platforms, post_status req, res.1, env.now⟩
    (match validate_post_ids res.1 with
     | some entries => Except.ok ⟨post_status req, post_id, entries⟩
     | none => Except.error ⟨500, "Internal Server Error"⟩,
     { db with posts := db.posts ++ [newPost], users := bump_monthly uid db.users },
     res.2)

/-- The `POST /api/post` endpoint: `Depends(get_current_user)` then the body. -/
def create_post_endpoint (env : Env) (db : DB) (ctr : Nat) (req : PostRequest)
    (token : String) : Except HTTPErr PostResponse × DB × Nat :=
  match get_current_user db token with
  | Except.error e => (Except.error e, db, ctr)
  | Except.ok uid => create_post env db ctr req uid

/-- Pydantic validation of `UserCreateRequest` (src/main.py lines 128-146).
`passwords_match` checks `confirm_password` only when the already-validated
`password` is truthy (non-empty); `restrict_admin` compares `admin_secret`
against the process-wide `ADMIN_SECRET` when `is_admin` is requested. -/
def validate_user_create (adminSecret : Option String) (r : UserCreateRequest) :
    Option String :=
  if r.password ≠ "" ∧ r.confirm_password ≠ r.password then some "Passwords do not match"
  else if r.is_admin ∧ r.admin_secret ≠ adminSecret then some "Invalid admin secret"
  else none

/-- Embeds `create_user` (src/main.py lines 333-349), with the pydantic validation
that FastAPI runs before the body (surfaced as a 422 validation error).
Draws an api key and a fresh id, inserts the user with lowercased email,
and maps the sqlite UNIQUE-constraint violation to `400 User exists`. -/
def create_user (adminSecret : Option String) (db : DB) (ctr : Nat)
    (r : UserCreateRequest) : Except HTTPErr String × DB × Nat :=
  match validate_user_create adminSecret r with
  | some msg => (Except.error ⟨422, msg⟩, db, ctr)
  | none =>
      let hashed := pwd_hash r.password
      let api_key := uuidStr ctr
      let new_id := uuidStr (ctr + 1)
      if db.users.any (fun u => u.email = py_lower r.email || u.id = new_id || u.api_key = api_key) then
        (Except.error ⟨400, "User exists"⟩, db, ctr + 2)
      else
        (Except.ok api_key,
         { db with users := db.users ++
             [⟨new_id, py_lower r.email, hashed, api_key, r.tier, 0, 0, r.is_admin⟩] },
         ctr + 2)

/-! ## Concrete inputs used by witnesses and counterexamples -/

/-- An environment for concrete runs: both external posting calls fail with
a transport error. -/
def env0 : Env := ⟨0, "", fun _ => TwResult.fail "down", fun _ => IgResult.fail "down"⟩

/-- A non-admin premium-tier user. -/
def una : User := ⟨"u1", "na@x.com", pwd_hash "pw", "k1", "premium", 0, 0, false⟩

/-- A database holding only the non-admin user `una` and no platform tokens. -/
def dbNA : DB := ⟨[una], [], [], []⟩

/-- A free-tier user whose `monthly_posts` counter has reached 20. -/
def uFree20 : User := ⟨"u2", "free@x.com", pwd_hash "pw", "kk", "free", 0, 20, false⟩

/-- A database holding only `uFree20`. -/
def dbFree20 : DB := ⟨[uFree20], [], [], []⟩

/-- A registered user for login runs. -/
def uLogin : User := ⟨"u3", "bob@x.com", pwd_hash "pw", "k3", "premium", 0, 0, false⟩

/-- A database holding only `uLogin`. -/
def dbLogin : DB := ⟨[uLogin], [], [], []⟩

/-- The empty database. -/
def emptyDB : DB := ⟨[], [], [], []⟩

/-- A dispatch request targeting two generic (mock) platforms. -/
def reqGeneric : PostRequest := ⟨"hello", ["facebook", "linkedin"], none, none⟩

/-- A dispatch request naming twitter together with an unsupported platform. -/
def reqTwitterBogus : PostRequest := ⟨"hello", ["twitter", "bogus"], none, none⟩

/-- A dispatch request targeting twitter alone. -/
def reqTwitterOnly : PostRequest := ⟨"hello", ["twitter"], none, none⟩

/-- A dispatch request targeting a generic platform and instagram. -/
def reqInsta : PostRequest := ⟨"hello", ["facebook", "instagram"], none, none⟩

/-- An admin business-tier user. -/
def uAdmin : User := ⟨"ua", "adm@x.com", pwd_hash "pw", "ka", "business", 0, 0, true⟩

/-- A database holding only the admin user `uAdmin`. -/
def dbAdmin : DB := ⟨[uAdmin], [], [], []⟩

/-- A dispatch request to one generic platform with approval requested. -/
def reqApproval : PostRequest := ⟨"hello", ["facebook"], none, some true⟩

/-- The validated response entries of the `reqGeneric` run from counter 0. -/
def genEntries : List PostIdEntry :=
  [⟨"facebook", "success", "uuid-1", some "https://facebook.com/post/uuid-2", none⟩,
   ⟨"linkedin", "success", "uuid-3", some "https://linkedin.com/post/uuid-4", none⟩]

/-- A registration request whose password is the empty string and whose
confirmation differs from it. -/
def reqEmptyPw : UserCreateRequest := ⟨"a@b.com", "", "x", none, false, "free"⟩

/-- A registration request with a non-empty password and a differing
confirmation. -/
def reqPwMismatch : UserCreateRequest := ⟨"a@b.com", "pw", "xx", none, false, "free"⟩

/-! ## Helper lemmas about the dispatch loop -/

theorem dispatch_one_platform (env : Env) (db : DB) (uid : String) (i ctr : Nat) (p : String) :
    (dispatch_one env db uid i ctr p).1.platform = p := by
  unfold dispatch_one
  by_cases h1 : p = "twitter"
  · subst h1
    rw [if_pos rfl]
    cases htc : get_twitter_client db uid with
    | error e => rfl
    | ok u =>
      cases htw : env.twitter i with
      | ok tid => rfl
      | fail m => rfl
  · by_cases h2 : p = "instagram"
    · subst h2
      rw [if_neg h1, if_pos rfl]
      unfold post_to_instagram
      cases hpt : get_platform_token env db uid "instagram" with
      | none => rfl
      | some t =>
        cases hig : env.instagram i with
        | ok o =>
          cases o with
          | some rid => rfl
          | none => rfl
        | fail m => rfl
    · rw [if_neg h1, if_neg h2]

theorem dispatch_loop_map_platform (env : Env) (db : DB) (uid : String) :
    ∀ (ps : List String) (i ctr : Nat),
      ((dispatch_loop env db uid ps i ctr).1).map PlatformResult.platform = ps := by
  intro ps
  induction ps with
  | nil => intro i ctr; rfl
  | cons p ps ih =>
    intro i ctr
    show (dispatch_one env db uid i ctr p).1.platform ::
        ((dispatch_loop env db uid ps (i + 1)
            (dispatch_one env db uid i ctr p).2).1).map PlatformResult.platform = p :: ps
    rw [dispatch_one_platform, ih]

theorem to_str_dict_platform (r : PlatformResult) (e : PostIdEntry)
    (h : to_str_dict r = some e) : e.platform = r.platform := by
  unfold to_str_dict at h
  cases hid : r.id with
  | none =>
    rw [hid] at h
    exact Option.noConfusion h
  | some i =>
    rw [hid] at h
    injection h with h2
    rw [← h2]

theorem validate_post_ids_map_platform :
    ∀ (l : List PlatformResult) (es : List PostIdEntry),
      validate_post_ids l = some es →
      es.map PostIdEntry.platform = l.map PlatformResult.platform := by
  intro l
  induction l with
  | nil =>
    intro es h
    injection h with h2
    rw [← h2]
    rfl
  | cons r rs ih =>
    intro es h
    unfold validate_post_ids at h
    cases hd : to_str_dict r with
    | none =>
      rw [hd] at h
      exact Option.noConfusion h
    | some e =>
      rw [hd] at h
      cases hv : validate_post_ids rs with
      | none =>
        rw [hv] at h
        exact Option.noConfusion h
      | some es2 =>
        rw [hv] at h
        injection h with h2
        rw [← h2]
        simp only [List.map_cons]
        rw [to_str_dict_platform r e hd, ih es2 hv]

theorem create_post_eq (env : Env) (db : DB) (ctr : Nat) (req : PostRequest) (uid : String)
    (hval : ∀ p ∈ req.platforms, p ∈ PLATFORMS)
    (hgate : req.platforms.contains "twitter" = true → user_is_admin db uid = true) :
    create_post env db ctr req uid =
      (match validate_post_ids (dispatch_loop env db uid req.platforms 0 (ctr + 1)).1 with
       | some entries => Except.ok ⟨post_status req, uuidStr ctr, entries⟩
       | none => Except.error ⟨500, "Internal Server Error"⟩,
       { db with
          posts := db.posts ++ [⟨uuidStr ctr, uid, req.post, req.platforms, post_status req,
            (dispatch_loop env db uid req.platforms 0 (ctr + 1)).1, env.now⟩],
          users := bump_monthly uid db.users },
       (dispatch_loop env db uid req.platforms 0 (ctr + 1)).2) := by
  have h1 : req.platforms.all (fun p => PLATFORMS.contains p) = true :=
    List.all_eq_true.mpr (fun p hp => by simpa using hval p hp)
  have h2 : (req.platforms.contains "twitter" && ! user_is_admin db uid) = false := by
    cases htc : req.platforms.contains "twitter" with
    | false => rfl
    | true => rw [hgate htc]; rfl
  unfold create_post
  rw [if_neg (not_not_intro h1), if_neg (by rw [h2]; exact Bool.false_ne_true)]

/-! ## Claim theorems -/

/-- C1 counterexample: a gate-passing call with only supported platforms
(twitter by an admin) in which the external tweet call fails: the dispatch
produces an error entry with a `None` id, response validation rejects it,
and the call returns 500 — no `postIds` list is returned at all, so the
claim's returned-list property fails on this run in its domain. -/
theorem dispatch_no_postids_on_error_entry_cex :
    (∀ p ∈ reqTwitterOnly.platforms, p ∈ PLATFORMS) ∧
    user_is_admin dbAdmin "ua" = true ∧
    (create_post env0 dbAdmin 0 reqTwitterOnly "ua").1 =
      Except.error ⟨500, "Internal Server Error"⟩ :=
  ⟨by decide, rfl, rfl⟩

/-- C1 amended: for every dispatch call whose platform list contains only
supported platform names and which passes the Twitter admin gate, the
dispatcher produces exactly one result entry per requested platform, the
i-th tagged with the i-th requested platform, in request order — no
platform dropped or reordered — and persists them in the Post record; the
call returns them as `postIds` when every entry validates against the
response type (its id a string), while runs with a `None`-id entry fail
response validation and return no `postIds`. -/
theorem dispatch_preserves_platform_order (env : Env) (db : DB) (ctr : Nat)
    (req : PostRequest) (uid : String)
    (hval : ∀ p ∈ req.platforms, p ∈ PLATFORMS)
    (hgate : req.platforms.contains "twitter" = true → user_is_admin db uid = true) :
    (create_post env db ctr req uid).2.1.posts =
      db.posts ++ [⟨uuidStr ctr, uid, req.post, req.platforms, post_status req,
        (dispatch_loop env db uid req.platforms 0 (ctr + 1)).1, env.now⟩] ∧
    ((dispatch_loop env db uid req.platforms 0 (ctr + 1)).1).map PlatformResult.platform
      = req.platforms ∧
    (∀ entries,
      validate_post_ids (dispatch_loop env db uid req.platforms 0 (ctr + 1)).1
        = some entries →
      (create_post env db ctr req uid).1 =
        Except.ok ⟨post_status req, uuidStr ctr, entries⟩ ∧
      entries.map PostIdEntry.platform = req.platforms ∧
      entries.length = req.platforms.length) := by
  have he := create_post_eq env db ctr req uid hval hgate
  have hmp := dispatch_loop_map_platform env db uid req.platforms 0 (ctr + 1)
  refine ⟨by rw [he], hmp, ?_⟩
  intro entries hv
  have hep : entries.map PostIdEntry.platform = req.platforms := by
    rw [validate_post_ids_map_platform _ entries hv, hmp]
  refine ⟨?_, hep, ?_⟩
  · have h1 := congrArg Prod.fst he
    rw [h1, hv]
  · have h2 := congrArg List.length hep
    simpa using h2

/-- Witness for C1 (amended): a concrete all-success dispatch to two generic
platforms returns both validated entries in request order. -/
theorem dispatch_preserves_platform_order_witness :
    (∀ p ∈ reqGeneric.platforms, p ∈ PLATFORMS) ∧
    (reqGeneric.platforms.contains "twitter" = true → user_is_admin dbNA "u1" = true) ∧
    validate_post_ids (dispatch_loop env0 dbNA "u1" reqGeneric.platforms 0 1).1 =
      some genEntries ∧
    ((create_post env0 dbNA 0 reqGeneric "u1").1 =
      Except.ok ⟨post_status reqGeneric, uuidStr 0, genEntries⟩ ∧
    genEntries.map PostIdEntry.platform = reqGeneric.platforms ∧
    genEntries.length = reqGeneric.platforms.length) :=
  ⟨by decide, by decide, by decide,
   (dispatch_preserves_platform_order env0 dbNA 0 reqGeneric "u1"
     (by decide) (by decide)).2.2 genEntries (by decide)⟩

/-- C4 (code bug): for a free-tier user whose `monthly_posts` is at the
threshold, the body of `get_current_user` fails with 429 QuotaExceeded
exactly as the spec states, but the blanket `except Exception` around the
body re-raises it, so the caller observes 401 — the 429 never surfaces. -/
theorem free_quota_429_swallowed_to_401 :
    get_current_user_inner dbFree20 "kk" = Except.error ⟨429, "Free tier limit reached"⟩ ∧
    get_current_user dbFree20 "kk" = Except.error ⟨401, "Invalid API key"⟩ :=
  ⟨rfl, rfl⟩

/-- C5 (code bug): a login mismatch raises 401 inside `login_user`'s `try`
block exactly as the spec states, but the blanket `except Exception`
re-raises it as 500, so the caller observes 500 on a mismatch; on a match
the stored api key is returned. -/
theorem login_mismatch_401_swallowed_to_500 :
    login_user_inner dbLogin "bob@x.com" "wrong" =
      Except.error ⟨401, "Invalid email or password"⟩ ∧
    login_user dbLogin "bob@x.com" "wrong" =
      Except.error ⟨500, "Login error: 401: Invalid email or password"⟩ ∧
    login_user dbLogin "nobody@x.com" "pw" =
      Except.error ⟨500, "Login error: 401: Invalid email or password"⟩ ∧
    login_user dbLogin "bob@x.com" "pw" = Except.ok "k3" :=
  ⟨rfl, rfl, rfl, rfl⟩

/-- C9: decrypting an encrypted token returns the original token exactly,
for every non-empty byte-string token. -/
theorem token_roundtrip (key : Nat) (token : List Nat)
    (hne : token ≠ []) (hbytes : ∀ b ∈ token, b < 256) :
    decrypt_token key (encrypt_token key token) = token := by
  have aux : ∀ (l : List Nat), (∀ b ∈ l, b < 256) →
      l.map ((fun b => (b + (256 - key % 256)) % 256) ∘ (fun b => (b + key) % 256)) = l := by
    intro l
    induction l with
    | nil => intro _; rfl
    | cons b t ih =>
      intro hb
      simp only [List.map_cons, Function.comp_apply, List.cons.injEq]
      refine ⟨?_, ih (fun x hx => hb x (by simp [hx]))⟩
      have hblt := hb b (by simp)
      omega
  unfold decrypt_token encrypt_token cipher_decrypt cipher_encrypt
  rw [List.map_map]
  exact aux token hbytes

/-- Witness for C9: a concrete two-byte token and key. -/
theorem token_roundtrip_witness :
    ([104, 105] : List Nat) ≠ [] ∧ (∀ b ∈ ([104, 105] : List Nat), b < 256) ∧
    decrypt_token 5 (encrypt_token 5 [104, 105]) = [104, 105] :=
  ⟨by decide, by decide, token_roundtrip 5 [104, 105] (by decide) (by decide)⟩

/-- C10: `get_current_user` never surfaces any status other than 401: every
call either succeeds or fails with exactly 401 Invalid API key, and every
failure of its body — unknown api key or the internal 429 quota error — is
re-raised by the blanket handler as 401. -/
theorem auth_errors_surface_as_401 (db : DB) (token : String) :
    ((∃ uid, get_current_user db token = Except.ok uid) ∨
      get_current_user db token = Except.error ⟨401, "Invalid API key"⟩) ∧
    (∀ e, get_current_user_inner db token = Except.error e →
      get_current_user db token = Except.error ⟨401, "Invalid API key"⟩) := by
  constructor
  · cases h : get_current_user_inner db token with
    | ok uid => exact Or.inl ⟨uid, by unfold get_current_user; rw [h]⟩
    | error e => exact Or.inr (by unfold get_current_user; rw [h])
  · intro e he
    unfold get_current_user
    rw [he]

/-- Witness for C10: the quota violation raised internally as 429 reaches
the caller as 401. -/
theorem auth_errors_surface_as_401_witness :
    get_current_user_inner dbFree20 "kk" = Except.error ⟨429, "Free tier limit reached"⟩ ∧
    get_current_user dbFree20 "kk" = Except.error ⟨401, "Invalid API key"⟩ :=
  ⟨rfl, (auth_errors_surface_as_401 dbFree20 "kk").2 ⟨429, "Free tier limit reached"⟩ rfl⟩

/-- C2 counterexample: a non-admin user requesting `["twitter", "bogus"]`
does not receive Forbidden 403 — the unsupported name makes the call fail
first with 400 Invalid platforms. -/
theorem twitter_nonadmin_bad_platform_cex :
    user_is_admin dbNA "u1" = false ∧
    reqTwitterBogus.platforms.contains "twitter" = true ∧
    (create_post env0 dbNA 0 reqTwitterBogus "u1").1 =
      Except.error ⟨400, "Invalid platforms"⟩ ∧
    (400 : Nat) ≠ 403 :=
  ⟨rfl, rfl, rfl, by decide⟩

/-- C2 amended: for every dispatch whose platform list contains only
supported names and includes twitter, made by a user whose `is_admin` flag is
false, the whole call fails with Forbidden 403 before any platform is
dispatched: no per-platform results, no Post persisted, `monthly_posts`
untouched (database and counter returned unchanged). -/
theorem twitter_nonadmin_forbidden (env : Env) (db : DB) (ctr : Nat)
    (req : PostRequest) (uid : String)
    (hval : ∀ p ∈ req.platforms, p ∈ PLATFORMS)
    (htw : req.platforms.contains "twitter" = true)
    (hadmin : user_is_admin db uid = false) :
    create_post env db ctr req uid =
      (Except.error ⟨403, "Twitter posting restricted to admin users"⟩, db, ctr) := by
  have h1 : req.platforms.all (fun p => PLATFORMS.contains p) = true :=
    List.all_eq_true.mpr (fun p hp => by simpa using hval p hp)
  unfold create_post
  rw [if_neg (not_not_intro h1), if_pos (by rw [htw, hadmin]; rfl)]

/-- Witness for C2 (amended): a concrete non-admin twitter-only dispatch. -/
theorem twitter_nonadmin_forbidden_witness :
    (∀ p ∈ reqTwitterOnly.platforms, p ∈ PLATFORMS) ∧
    reqTwitterOnly.platforms.contains "twitter" = true ∧
    user_is_admin dbNA "u1" = false ∧
    create_post env0 dbNA 0 reqTwitterOnly "u1" =
      (Except.error ⟨403, "Twitter posting restricted to admin users"⟩, dbNA, 0) :=
  ⟨by decide, by decide, by decide,
   twitter_nonadmin_forbidden env0 dbNA 0 reqTwitterOnly "u1" (by decide) (by decide) (by decide)⟩

/-- C3 (code bug): in the claim's exact scenario — a dispatch to facebook
and instagram by a user with no stored instagram token — the loop builds and
persists exactly the claimed entries (facebook success, instagram error with
message No Instagram token), but the response model rejects the error
entry's `None` id, so the call returns 500 and neither entry reaches the
caller: the instagram failure does abort the call, against the isolation
the error-dict design intends. -/
theorem instagram_missing_token_aborts_call :
    dbNA.platform_tokens = [] ∧
    (create_post env0 dbNA 0 reqInsta "u1").2.1.posts.map Post.post_ids =
      [[⟨"facebook", "success", some "uuid-1", some "https://facebook.com/post/uuid-2", none⟩,
        ⟨"instagram", "error", none, none, some "No Instagram token"⟩]] ∧
    (create_post env0 dbNA 0 reqInsta "u1").1 =
      Except.error ⟨500, "Internal Server Error"⟩ :=
  ⟨rfl, rfl, rfl⟩

/-- C6 (code bug): a dispatch without approval whose entries contain an
error persists the Post with status success — the status formula ignores the
per-platform results — but the constructed response fails validation on the
`None` id, so that success status is returned to no one (HTTP 500); on runs
whose entries all validate, the returned status does equal the
approval-flag formula (awaiting_approval when requested, success
otherwise). -/
theorem success_status_with_error_entries_500 :
    (create_post env0 dbNA 0 reqInsta "u1").2.1.posts.map Post.status = ["success"] ∧
    (create_post env0 dbNA 0 reqInsta "u1").2.1.posts.map
        (fun p => p.post_ids.map PlatformResult.status) = [["success", "error"]] ∧
    (create_post env0 dbNA 0 reqInsta "u1").1 =
      Except.error ⟨500, "Internal Server Error"⟩ ∧
    (create_post env0 dbNA 0 reqApproval "u1").1 =
      Except.ok ⟨"awaiting_approval", "uuid-0",
        [⟨"facebook", "success", "uuid-1", some "https://facebook.com/post/uuid-2", none⟩]⟩ ∧
    (create_post env0 dbNA 0 reqGeneric "u1").1 =
      Except.ok ⟨"success", "uuid-0", genEntries⟩ :=
  ⟨rfl, rfl, rfl, rfl, rfl⟩

/-- C7: every dispatch call that reaches the persist step — those returning
200, and also those failing response validation with 500 after the writes
committed — increments the acting user's monthly_posts by exactly one,
regardless of platform count or per-platform failures, and modifies nothing
else in the users table. -/
theorem dispatch_increments_monthly_posts_once (env : Env) (db : DB) (ctr : Nat)
    (req : PostRequest) (uid : String) (resp : PostResponse) (db2 : DB) (ctr2 : Nat)
    (h : create_post env db ctr req uid = (Except.ok resp, db2, ctr2) ∨
         create_post env db ctr req uid =
           (Except.error ⟨500, "Internal Server Error"⟩, db2, ctr2)) :
    db2.users = db.users.map
      (fun u => if u.id = uid then { u with monthly_posts := u.monthly_posts + 1 } else u) := by
  unfold create_post at h
  by_cases h1 : ¬ ((req.platforms.all fun p => PLATFORMS.contains p) = true)
  · rw [if_pos h1] at h
    rcases h with h | h
    · simp at h
    · simp at h
  · rw [if_neg h1] at h
    by_cases h2 : (req.platforms.contains "twitter" && ! user_is_admin db uid) = true
    · rw [if_pos h2] at h
      rcases h with h | h
      · simp at h
      · simp at h
    · rw [if_neg h2] at h
      rcases h with h | h
      · have hu := congrArg (fun x => x.2.1.users) h
        simpa [bump_monthly] using hu.symm
      · have hu := congrArg (fun x => x.2.1.users) h
        simpa [bump_monthly] using hu.symm

/-- Witness for C7: a concrete two-platform dispatch bumps the single user's
counter from 0 to 1 and changes nothing else. -/
theorem dispatch_increments_monthly_posts_once_witness :
    (create_post env0 dbNA 0 reqGeneric "u1").2.1.users =
      dbNA.users.map
        (fun u => if u.id = "u1" then { u with monthly_posts := u.monthly_posts + 1 } else u) :=
  dispatch_increments_monthly_posts_once env0 dbNA 0 reqGeneric "u1" _ _ _ (Or.inl rfl)

/-- C8 counterexample: a registration whose password is the empty string and
whose confirmation differs is accepted — the `passwords_match` validator
only compares when the already-validated password is truthy, so no
ValidationError is raised and a user is persisted. -/
theorem empty_password_mismatch_accepted_cex :
    reqEmptyPw.password ≠ reqEmptyPw.confirm_password ∧
    (create_user none emptyDB 0 reqEmptyPw).1 = Except.ok "uuid-0" ∧
    (create_user none emptyDB 0 reqEmptyPw).2.1.users =
      [⟨"uuid-1", "a@b.com", pwd_hash "", "uuid-0", "free", 0, 0, false⟩] :=
  ⟨by decide, rfl, rfl⟩

/-- C8 amended: for every registration whose password is non-empty (truthy
in Python) and differs from confirm_password, registration fails with a
validation error and the user store is unchanged. -/
theorem password_mismatch_rejected (adminSecret : Option String) (db : DB) (ctr : Nat)
    (r : UserCreateRequest)
    (hne : r.password ≠ "") (hmm : r.password ≠ r.confirm_password) :
    create_user adminSecret db ctr r =
      (Except.error ⟨422, "Passwords do not match"⟩, db, ctr) := by
  have hv : validate_user_create adminSecret r = some "Passwords do not match" := by
    unfold validate_user_create
    rw [if_pos ⟨hne, fun hc => hmm hc.symm⟩]
  unfold create_user
  rw [hv]

/-- Witness for C8 (amended): a concrete mismatching registration. -/
theorem password_mismatch_rejected_witness :
    reqPwMismatch.password ≠ "" ∧
    reqPwMismatch.password ≠ reqPwMismatch.confirm_password ∧
    create_user none emptyDB 0 reqPwMismatch =
      (Except.error ⟨422, "Passwords do not match"⟩, emptyDB, 0) :=
  ⟨by decide, by decide,
   password_mismatch_rejected none emptyDB 0 reqPwMismatch (by decide) (by decide)⟩

end PostMuse
